import Mathlib

/-!
Shallow embedding of `streamlit_resume_analyzer2.py`, the single source file of
the AI-RESUME-ANALYZER repository, together with theorems settling the spec's
claims about it.

Strings are modelled as Lean `String`s; Python's ASCII-relevant behaviour of
`str.lower`, the `in` substring operator and `str.count` is reproduced by
explicit recursive functions below.  Library effects (temporary-file creation
in the Word-document path, scikit-learn vectorization) are made explicit:
the docx extractor returns, next to its text, whether the temporary file it
materialized still exists when the call returns, and the similarity scorer
returns an `Except` distinguishing a returned value from a propagated
exception, plus a flag recording whether vectorization was attempted.
-/

/-- Python `str.lower` restricted to ASCII (all texts in the claims are ASCII);
`Char.toLower` lowercases exactly the ASCII uppercase letters. -/
def lowerStr (s : String) : String := String.mk (s.data.map Char.toLower)

/-- Helper for Python's substring operator `in`: does `pat` occur as a
contiguous substring of `s`?  Scans every suffix for a prefix match. -/
def hasSubAux (pat : List Char) : List Char → Bool
  | [] => pat.isEmpty
  | c :: rest => pat.isPrefixOf (c :: rest) || hasSubAux pat rest

/-- Python `pat in s` for strings: substring containment. -/
def hasSubstr (s pat : String) : Bool := hasSubAux pat.data s.data

/-- Python `str.count`: number of non-overlapping occurrences of `pat` in the
scanned list, counted by a greedy left-to-right scan; after a match the scan
resumes past the matched characters (`skip` counts how many positions remain
to be jumped over).  The empty pattern matches once at every position
including the end (so `"aaa".count("") = 4`). -/
def pyCountAux (pat : List Char) : List Char → Nat → Nat
  | [], _ => if pat = [] then 1 else 0
  | c :: rest, 0 =>
    if pat = [] then 1 + pyCountAux pat rest 0
    else if pat.isPrefixOf (c :: rest) then
      1 + pyCountAux pat rest (pat.length - 1)
    else
      pyCountAux pat rest 0
  | _ :: rest, skip + 1 => pyCountAux pat rest skip

/-- Python `s.count(pat)` on strings. -/
def pyCount (s pat : String) : Nat := pyCountAux pat.data s.data 0

/- ------------------------- Text extraction ------------------------- -/

/-- Model of a Streamlit `UploadedFile` as the extraction-relevant reactions of
its byte content: how `PyPDF2.PdfReader` + per-page `extract_text()` would
respond (`none` = raises; a page's `none` = `extract_text()` returned `None`),
how `docx.Document` would respond (`none` = raises), and how
`getvalue().decode("utf-8")` would respond (`none` = raises). -/
structure UploadedFile where
  name : String
  pdfPages : Option (List (Option String))
  docxParagraphs : Option (List String)
  utf8Content : Option String

/-- `extract_text_from_pdf`: join every page's extracted text (`None` page
text contributes `""`) with newlines; any exception yields `""`. -/
def extract_text_from_pdf (f : UploadedFile) : String :=
  match f.pdfPages with
  | none => ""
  | some pages => String.intercalate "\n" (pages.map (fun p => p.getD ""))

/-- `extract_text_from_docx`: a temporary file is created (`delete=False`) and
written, `docx.Document` parses it, paragraphs are joined with newlines and
`os.unlink` then removes the file; an exception is caught and `""` returned.
The input is the reaction of `docx.Document` (`none` = raises); the second
component of the result records whether the temporary file still exists when
the call returns.  On the success path `os.unlink(path)` runs before `return
text`; on the exception path control jumps straight to `except`, past the
`os.unlink`, so the file is left behind. -/
def extract_text_from_docx (parseResult : Option (List String)) :
    String × Bool :=
  match parseResult with
  | some paragraphs => (String.intercalate "\n" paragraphs, false)
  | none => ("", true)

/-- Python `s.endswith(pat)`. -/
def pyEndsWith (s pat : String) : Bool := pat.data.isSuffixOf s.data

/-- `extract_text`: dispatch on the lowercased filename suffix; a missing
upload yields `""` with no extraction attempted; the plain-text fallback
decodes UTF-8 and catches decode failure to `""`. -/
def extract_text (uploaded_file : Option UploadedFile) : String :=
  match uploaded_file with
  | none => ""
  | some f =>
    let name := lowerStr f.name
    if pyEndsWith name ".pdf" then
      extract_text_from_pdf f
    else if pyEndsWith name ".docx" || pyEndsWith name ".doc" then
      (extract_text_from_docx f.docxParagraphs).1
    else
      (f.utf8Content).getD ""

/- ------------------------- Skill matching ------------------------- -/

def DEFAULT_SKILLS : List String :=
  ["python", "java", "c++", "c#", "javascript", "sql", "html", "css",
   "react", "node", "django", "flask", "fastapi", "aws", "docker",
   "machine learning", "data science", "excel", "communication",
   "teamwork", "leadership"]

/-- `extract_skills`: the source builds the pattern
`r"\\b" + re.escape(s) + r"\\b"`.  `r"\\b"` is the two characters `\` `b`,
which the regex engine reads as an escaped literal backslash followed by a
literal `b` — not the word-boundary assertion `\b`.  `re.escape(s)` matches
`s` literally.  So `re.search` succeeds exactly when the lowercased text
contains the literal substring `\b` ++ s ++ `\b`.  The matching skills form a
set (no duplicates in the vocabulary) returned sorted ascending. -/
def extract_skills (text : String) : List String :=
  let t := lowerStr text
  List.insertionSort (fun a b => a ≤ b)
    (DEFAULT_SKILLS.filter (fun s => hasSubstr t ("\\b" ++ s ++ "\\b")))

/- ------------------------- Similarity scoring ------------------------- -/

/-- scikit-learn's built-in English stop-word list
(`sklearn.feature_extraction.text.ENGLISH_STOP_WORDS`), used by
`TfidfVectorizer(stop_words='english')`. -/
def ENGLISH_STOP_WORDS : List String :=
  ["a", "about", "above", "across", "after", "afterwards", "again",
   "against", "all", "almost", "alone", "along", "already", "also",
   "although", "always", "am", "among", "amongst", "amoungst", "amount",
   "an", "and", "another", "any", "anyhow", "anyone", "anything", "anyway",
   "anywhere", "are", "around", "as", "at", "back", "be", "became",
   "because", "become", "becomes", "becoming", "been", "before",
   "beforehand", "behind", "being", "below", "beside", "besides",
   "between", "beyond", "bill", "both", "bottom", "but", "by", "call",
   "can", "cannot", "cant", "co", "con", "could", "couldnt", "cry", "de",
   "describe", "detail", "do", "done", "down", "due", "during", "each",
   "eg", "eight", "either", "eleven", "else", "elsewhere", "empty",
   "enough", "etc", "even", "ever", "every", "everyone", "everything",
   "everywhere", "except", "few", "fifteen", "fifty", "fill", "find",
   "fire", "first", "five", "for", "former", "formerly", "forty", "found",
   "four", "from", "front", "full", "further", "get", "give", "go", "had",
   "has", "hasnt", "have", "he", "hence", "her", "here", "hereafter",
   "hereby", "herein", "hereupon", "hers", "herself", "him", "himself",
   "his", "how", "however", "hundred", "i", "ie", "if", "in", "inc",
   "indeed", "interest", "into", "is", "it", "its", "itself", "keep",
   "last", "latter", "latterly", "least", "less", "ltd", "made", "many",
   "may", "me", "meanwhile", "might", "mill", "mine", "more", "moreover",
   "most", "mostly", "move", "much", "must", "my", "myself", "name",
   "namely", "neither", "never", "nevertheless", "next", "nine", "no",
   "nobody", "none", "noone", "nor", "not", "nothing", "now", "nowhere",
   "of", "off", "often", "on", "once", "one", "only", "onto", "or",
   "other", "others", "otherwise", "our", "ours", "ourselves", "out",
   "over", "own", "part", "per", "perhaps", "please", "put", "rather",
   "re", "same", "see", "seem", "seemed", "seeming", "seems", "serious",
   "several", "she", "should", "show", "side", "since", "sincere", "six",
   "sixty", "so", "some", "somehow", "someone", "something", "sometime",
   "sometimes", "somewhere", "still", "such", "system", "take", "ten",
   "than", "that", "the", "their", "them", "themselves", "then", "thence",
   "there", "thereafter", "thereby", "therefore", "therein", "thereupon",
   "these", "they", "thick", "thin", "third", "this", "those", "though",
   "three", "through", "throughout", "thru", "thus", "to", "together",
   "too", "top", "toward", "towards", "twelve", "twenty", "two", "un",
   "under", "until", "up", "upon", "us", "very", "via", "was", "we",
   "well", "were", "what", "whatever", "when", "whence", "whenever",
   "where", "whereafter", "whereas", "whereby", "wherein", "whereupon",
   "wherever", "whether", "which", "while", "whither", "who", "whoever",
   "whole", "whom", "whose", "why", "will", "with", "within", "without",
   "would", "yet", "you", "your", "yours", "yourself", "yourselves"]

/-- A character matched by `\w` in the vectorizer's default token pattern
(ASCII fragment). -/
def wordChar (c : Char) : Bool := c.isAlphanum || c = '_'

/-- Split a character list into maximal runs of word characters (the
accumulator holds the current run reversed). -/
def tokenizeAux : List Char → List Char → List (List Char)
  | [], cur => if cur = [] then [] else [cur.reverse]
  | c :: rest, cur =>
    if wordChar c then tokenizeAux rest (c :: cur)
    else if cur = [] then tokenizeAux rest []
    else cur.reverse :: tokenizeAux rest []

/-- The tokens `TfidfVectorizer` extracts from a document: lowercase, then
take maximal word-character runs of length at least 2
(default token pattern `(?u)\b\w\w+\b`). -/
def sklearnTokens (s : String) : List String :=
  ((tokenizeAux (lowerStr s).data []).filter (fun t => 2 ≤ t.length)).map
    (fun t => String.mk t)

/-- The fitted vocabulary over a document list: all tokens that are not stop
words, deduplicated and sorted (feature names in sorted order).
`fit_transform` raises `ValueError` exactly when this is empty. -/
def tfidfVocab (docs : List String) : List String :=
  List.insertionSort (fun a b => a ≤ b)
    (((docs.map sklearnTokens).flatten.filter
        (fun w => !ENGLISH_STOP_WORDS.contains w)).dedup)

/-- The value `compute_match_score` would return: either the literal `0.0`
of the empty-input guard, or `cosine_similarity` of the two tf-idf vectors
scaled by 100 (a floating-point library value, kept symbolic as the pair of
documents it is computed from). -/
inductive MatchValue where
  | num (q : ℚ)
  | cosineTimes100 (resume_text jd_text : String)
  deriving DecidableEq, Repr

/-- Outcome of a `compute_match_score` call: the returned value or the
propagated exception, plus whether `fit_transform` (vectorization) ran. -/
structure ScoreOutcome where
  result : Except String MatchValue
  vectorized : Bool
  deriving Repr

/-- `compute_match_score`: guard `if not resume_text or not jd_text: return
0.0` (Python string falsity = emptiness), then vectorize the two texts with
English stop words removed.  There is no `try`/`except` in the source: the
`ValueError` that `fit_transform` raises on an empty vocabulary propagates
to the caller. -/
def compute_match_score (resume_text jd_text : String) : ScoreOutcome :=
  if resume_text = "" ∨ jd_text = "" then
    { result := Except.ok (MatchValue.num 0), vectorized := false }
  else if tfidfVocab [resume_text, jd_text] = [] then
    { result := Except.error
        "empty vocabulary; perhaps the documents only contain stop words",
      vectorized := true }
  else
    { result := Except.ok (MatchValue.cosineTimes100 resume_text jd_text),
      vectorized := true }

/- ------------------------- Heuristic checks ------------------------- -/

/-- `section_check`: the four required section names in canonical order;
return those not contained (case-insensitively) in the text. -/
def section_check (text : String) : List String :=
  let sections := ["education", "skills", "experience", "projects"]
  sections.filter (fun s => !hasSubstr (lowerStr text) s)

/-- `career_level`: ordered, short-circuiting substring checks on the
lowercased text. -/
def career_level (text : String) : String :=
  let t := lowerStr text
  if hasSubstr t "intern" || hasSubstr t "student" then "Student / Fresher"
  else if hasSubstr t "year" then "Experienced"
  else "Unknown"

/-- `keyword_density`: `text.lower().count(keyword.lower())`. -/
def keyword_density (text keyword : String) : Nat :=
  pyCount (lowerStr text) (lowerStr keyword)

/-- The readiness label derived in the report (line 145 of the source):
`"Job Ready" if score > 70 else "Partially Ready" if score > 40 else
"Not Ready"`. -/
def readiness (score : ℚ) : String :=
  if score > 70 then "Job Ready"
  else if score > 40 then "Partially Ready"
  else "Not Ready"

/- ------------------------- Theorems ------------------------- -/

/-- C1: the spec claims the skill matcher returns the vocabulary terms that
occur in the text as whole words, and in particular that the resume text
"Skills: Python, SQL. Education: BS CS. Experience: 2 years." matches python
and sql.  The code's pattern `r"\\b" + re.escape(s) + r"\\b"` instead
requires the literal two characters `\` `b` around the term (the raw string
`r"\\b"` is an escaped backslash plus a literal `b`, not the word-boundary
assertion), so the example text matches no skill at all, while a text that
literally contains `\bpython\b` does match "python". -/
theorem c1_extract_skills_literal_backslash :
    extract_skills
        "Skills: Python, SQL. Education: BS CS. Experience: 2 years." = [] ∧
      extract_skills "I know \\bpython\\b well" = ["python"] := by
  constructor <;> rfl

/-- C2 counterexample: on the parse-failure exit path the temporary file
still exists when `extract_text_from_docx` returns (`os.unlink` sits before
`return text` inside the `try` block and is skipped when `docx.Document`
raises), contradicting the claim that the file is deleted on every exit
path. -/
theorem c2_docx_tmpfile_counterexample :
    extract_text_from_docx none = ("", true) := rfl

/-- C2 amended: the temporary file is deleted on the success path (the
paragraphs are joined with newlines and the file is unlinked before
returning), but when parsing fails the exception handler returns "" without
deleting it, so the temporary file is left behind. -/
theorem c2_docx_tmpfile_cleanup :
    (∀ paragraphs : List String,
        extract_text_from_docx (some paragraphs) =
          (String.intercalate "\n" paragraphs, false)) ∧
      (extract_text_from_docx none).2 = true := by
  exact ⟨fun paragraphs => rfl, rfl⟩

/-- C2 witness: the amended theorem evaluated at a concrete document. -/
theorem c2_docx_tmpfile_cleanup_witness :
    extract_text_from_docx (some ["alpha", "beta"]) =
      (String.intercalate "\n" ["alpha", "beta"], false) :=
  c2_docx_tmpfile_cleanup.1 ["alpha", "beta"]

/-- C3 counterexample: `compute_match_score` has no `try`/`except`; with both
inputs equal to the stop word "the" the vocabulary after stop-word removal is
empty and the vectorizer's `ValueError` propagates to the caller instead of
yielding score 0. -/
theorem c3_score_exception_counterexample :
    compute_match_score "the" "the" =
      { result := Except.error
          "empty vocabulary; perhaps the documents only contain stop words",
        vectorized := true } := rfl

/-- C3 amended: only empty-string inputs are guarded (returning 0 without
vectorizing); whenever both inputs are nonempty and the post-stop-word
vocabulary is empty — e.g. inputs consisting entirely of stop words — the
empty-vocabulary exception propagates to the caller. -/
theorem c3_score_exception_iff (resume_text jd_text : String) :
    (compute_match_score resume_text jd_text).result =
        Except.error
          "empty vocabulary; perhaps the documents only contain stop words" ↔
      ¬resume_text = "" ∧ ¬jd_text = "" ∧
        tfidfVocab [resume_text, jd_text] = [] := by
  unfold compute_match_score
  by_cases h1 : resume_text = "" ∨ jd_text = ""
  · rw [if_pos h1]
    constructor
    · intro h
      simp at h
    · rintro ⟨hr, hj, -⟩
      rcases h1 with h1 | h1
      · exact absurd h1 hr
      · exact absurd h1 hj
  · push_neg at h1
    by_cases h2 : tfidfVocab [resume_text, jd_text] = [] <;>
      simp [h1.1, h1.2, h2]

/-- C3 witness: the amended characterization applied to concrete stop-word
texts. -/
theorem c3_score_exception_witness :
    (compute_match_score "of the" "and or").result =
      Except.error
        "empty vocabulary; perhaps the documents only contain stop words" :=
  (c3_score_exception_iff "of the" "and or").mpr
    ⟨by decide, by decide, by rfl⟩

/-- C4: when either argument is the empty string the scorer returns exactly
0.0 and no vectorization is attempted. -/
theorem c4_empty_input_zero (x : String) :
    compute_match_score "" x =
        { result := Except.ok (MatchValue.num 0), vectorized := false } ∧
      compute_match_score x "" =
        { result := Except.ok (MatchValue.num 0), vectorized := false } := by
  constructor
  · rfl
  · simp [compute_match_score]

/-- C4 witness: the guard evaluated at a concrete nonempty string. -/
theorem c4_empty_input_zero_witness :
    compute_match_score "" "resume body" =
        { result := Except.ok (MatchValue.num 0), vectorized := false } ∧
      compute_match_score "resume body" "" =
        { result := Except.ok (MatchValue.num 0), vectorized := false } :=
  c4_empty_input_zero "resume body"

/-- C5: the readiness label is "Job Ready" for score > 70, "Partially Ready"
for 40 < score ≤ 70 and "Not Ready" for score ≤ 40; the thresholds are
exclusive on the lower bound, so 70 is "Partially Ready", 70.01 is
"Job Ready" and 40 is "Not Ready". -/
theorem c5_readiness_label :
    (∀ score : ℚ, 70 < score → readiness score = "Job Ready") ∧
      (∀ score : ℚ, 40 < score → score ≤ 70 →
        readiness score = "Partially Ready") ∧
      (∀ score : ℚ, score ≤ 40 → readiness score = "Not Ready") ∧
      readiness 70 = "Partially Ready" ∧
      readiness (7001 / 100) = "Job Ready" ∧
      readiness 40 = "Not Ready" := by
  refine ⟨fun score h => ?_, fun score h1 h2 => ?_, fun score h => ?_,
    ?_, ?_, ?_⟩
  · simp [readiness, h]
  · simp [readiness, not_lt.mpr h2, h1]
  · have h70 : ¬(70 : ℚ) < score := not_lt.mpr (h.trans (by norm_num))
    have h40 : ¬(40 : ℚ) < score := not_lt.mpr h
    simp [readiness, h70, h40]
  · norm_num [readiness]
  · norm_num [readiness]
  · norm_num [readiness]

/-- C5 witness: the three tiers evaluated at concrete scores. -/
theorem c5_readiness_label_witness :
    readiness 80 = "Job Ready" ∧ readiness 50 = "Partially Ready" ∧
      readiness 10 = "Not Ready" :=
  ⟨c5_readiness_label.1 80 (by norm_num),
   c5_readiness_label.2.1 50 (by norm_num) (by norm_num),
   c5_readiness_label.2.2.1 10 (by norm_num)⟩

/-- C6: the career-level classifier returns "Student / Fresher" when the
lowercased text contains "intern" or "student", else "Experienced" when it
contains "year", else "Unknown"; the checks are ordered, so the
Student/Fresher condition takes precedence (text with both "intern" and
"5 years" yields "Student / Fresher"). -/
theorem c6_career_level :
    (∀ t : String,
        (hasSubstr (lowerStr t) "intern" || hasSubstr (lowerStr t) "student")
            = true →
          career_level t = "Student / Fresher") ∧
      (∀ t : String,
        (hasSubstr (lowerStr t) "intern" || hasSubstr (lowerStr t) "student")
            = false →
          hasSubstr (lowerStr t) "year" = true →
          career_level t = "Experienced") ∧
      (∀ t : String,
        (hasSubstr (lowerStr t) "intern" || hasSubstr (lowerStr t) "student")
            = false →
          hasSubstr (lowerStr t) "year" = false →
          career_level t = "Unknown") ∧
      career_level "intern with 5 years" = "Student / Fresher" ∧
      career_level "3 years experience" = "Experienced" ∧
      career_level "nothing relevant here" = "Unknown" := by
  refine ⟨fun t h => ?_, fun t h1 h2 => ?_, fun t h1 h2 => ?_, rfl, rfl, rfl⟩
  · simp [career_level, h]
  · simp [career_level, h1, h2]
  · simp [career_level, h1, h2]

/-- C6 witness: the three ordered branches applied at concrete texts. -/
theorem c6_career_level_witness :
    career_level "Intern at ACME" = "Student / Fresher" ∧
      career_level "worked two years" = "Experienced" ∧
      career_level "resume" = "Unknown" :=
  ⟨c6_career_level.1 "Intern at ACME" (by decide),
   c6_career_level.2.1 "worked two years" (by decide) (by decide),
   c6_career_level.2.2.1 "resume" (by decide) (by decide)⟩

/-- C7: the section-completeness check returns exactly the names among
"education", "skills", "experience", "projects" that do not occur
case-insensitively in the text, as a sublist of that fixed canonical order;
for text containing exactly "Education" and "Skills" the result is
["experience", "projects"]. -/
theorem c7_section_check :
    (∀ t s : String,
        s ∈ section_check t ↔
          s ∈ ["education", "skills", "experience", "projects"] ∧
            hasSubstr (lowerStr t) s = false) ∧
      (∀ t : String,
        List.Sublist (section_check t)
          ["education", "skills", "experience", "projects"]) ∧
      section_check "Education Skills" = ["experience", "projects"] := by
  refine ⟨fun t s => ?_, fun t => ?_, rfl⟩
  · simp [section_check, List.mem_filter]
  · exact List.filter_sublist _

/-- C7 witness: the membership characterization and the sublist property at a
concrete text. -/
theorem c7_section_check_witness :
    "education" ∈ section_check "no sections at all" :=
  (c7_section_check.1 "no sections at all" "education").mpr
    ⟨by decide, by decide⟩

/-- C8: text extraction never propagates an error: a missing upload, a PDF
whose parse raises, a Word document whose parse raises, and a plain-text
fallback whose UTF-8 decode raises all yield exactly the empty string. -/
theorem c8_extract_text_fallbacks :
    extract_text none = "" ∧
      (∀ f : UploadedFile,
        pyEndsWith (lowerStr f.name) ".pdf" = true →
        f.pdfPages = none →
        extract_text (some f) = "") ∧
      (∀ f : UploadedFile,
        pyEndsWith (lowerStr f.name) ".pdf" = false →
        (pyEndsWith (lowerStr f.name) ".docx" ||
            pyEndsWith (lowerStr f.name) ".doc") = true →
        f.docxParagraphs = none →
        extract_text (some f) = "") ∧
      (∀ f : UploadedFile,
        pyEndsWith (lowerStr f.name) ".pdf" = false →
        (pyEndsWith (lowerStr f.name) ".docx" ||
            pyEndsWith (lowerStr f.name) ".doc") = false →
        f.utf8Content = none →
        extract_text (some f) = "") := by
  refine ⟨rfl, fun f h1 h2 => ?_, fun f h1 h2 h3 => ?_,
    fun f h1 h2 h3 => ?_⟩
  · simp [extract_text, extract_text_from_pdf, h1, h2]
  · simp [extract_text, extract_text_from_docx, h1, h2, h3]
  · simp [extract_text, h1, h2, h3]

/-- C8 witness: the three failure paths and the missing upload evaluated at
concrete files. -/
theorem c8_extract_text_fallbacks_witness :
    extract_text (some ⟨"resume.PDF", none, some ["x"], some "y"⟩) = "" ∧
      extract_text (some ⟨"cv.docx", some [], none, some "y"⟩) = "" ∧
      extract_text (some ⟨"notes.txt", some [], some ["x"], none⟩) = "" :=
  ⟨c8_extract_text_fallbacks.2.1 ⟨"resume.PDF", none, some ["x"], some "y"⟩
      (by decide) rfl,
   c8_extract_text_fallbacks.2.2.1 ⟨"cv.docx", some [], none, some "y"⟩
      (by decide) (by decide) rfl,
   c8_extract_text_fallbacks.2.2.2 ⟨"notes.txt", some [], some ["x"], none⟩
      (by decide) (by decide) rfl⟩

/-- C9: `keyword_density` is case-insensitive — it depends only on the
lowercased text and keyword — and on the spec's example it counts the two
non-overlapping occurrences of "python". -/
theorem c9_keyword_density :
    (∀ t1 t2 k1 k2 : String, lowerStr t1 = lowerStr t2 →
        lowerStr k1 = lowerStr k2 →
        keyword_density t1 k1 = keyword_density t2 k2) ∧
      keyword_density "Python developer with Python skills" "python" = 2 := by
  refine ⟨fun t1 t2 k1 k2 h1 h2 => ?_, rfl⟩
  unfold keyword_density
  rw [h1, h2]

/-- C9 witness: case variants of text and keyword give the same count. -/
theorem c9_keyword_density_witness :
    keyword_density "PyThOn and PYTHON" "PYTHON" =
      keyword_density "python and python" "python" :=
  c9_keyword_density.1 "PyThOn and PYTHON" "python and python"
    "PYTHON" "python" (by decide) (by decide)

/-- Scanning with the empty pattern counts one occurrence at every position
of the scanned list, including the end. -/
theorem pyCountAux_nil (l : List Char) : pyCountAux [] l 0 = l.length + 1 := by
  induction l with
  | nil => simp [pyCountAux]
  | cons c rest ih =>
    have h : pyCountAux [] (c :: rest) 0 = 1 + pyCountAux [] rest 0 := rfl
    rw [h, ih, List.length_cons]
    omega

/-- C10: calling `keyword_density` with the empty keyword returns the length
of the text plus 1 (Python `str.count("")` counts the match at every
position including the end), not 0. -/
theorem c10_keyword_density_empty (t : String) :
    keyword_density t "" = t.length + 1 := by
  unfold keyword_density pyCount
  have hdata : (lowerStr "").data = ([] : List Char) := rfl
  rw [hdata, pyCountAux_nil]
  have hlen : (lowerStr t).data = t.data.map Char.toLower := rfl
  rw [hlen, List.length_map]
  rfl

/-- C10 witness: the empty-keyword edge case at a concrete text. -/
theorem c10_keyword_density_empty_witness :
    keyword_density "abc" "" = "abc".length + 1 :=
  c10_keyword_density_empty "abc"
